import Mathlib

/-!
Shallow embedding of the club-identity reconciliation layer of the
mini-championship-pipeline repository, centred on
`src/utils/dim_club_24_25.py` and the `standardize_external_club`
helper of `src/transform/build_semantic_curated_2024_25.py`.

Pandas cell values are modelled by `Val` (string, integer, or null/NaN),
dataframes by a column list plus rows of cells, Python `dict` literals by
association lists with last-binding-wins lookup (`dictGet`), and Python
exceptions by `Except`.
-/

/-- Decidable equality of `Except` results, so that concrete runs of the
embedded fallible operations can be checked by evaluation. -/
instance {ε α : Type} [DecidableEq ε] [DecidableEq α] : DecidableEq (Except ε α) := by
  intro a b
  cases a with
  | ok x =>
    cases b with
    | ok y => exact decidable_of_iff (x = y) (by simp)
    | error f => exact isFalse (fun hc => Except.noConfusion hc)
  | error e =>
    cases b with
    | ok y => exact isFalse (fun hc => Except.noConfusion hc)
    | error f => exact decidable_of_iff (e = f) (by simp)

/-- A pandas cell value: a string, an integer, or null/NaN. -/
inductive Val where
  | str (s : String)
  | int (n : Int)
  | null
deriving DecidableEq, Repr

/-- The `SourceType` literal type of dim_club_24_25.py:
`Literal["league", "fbref_squad", "tm_transfers"]`. -/
inductive SourceType where
  | league
  | fbref_squad
  | tm_transfers
deriving DecidableEq, Repr

/-- Lookup in a Python dict built from an association-list literal: a later
binding of the same key overwrites an earlier one, so lookup returns the
last binding for the key, if any. -/
def dictGet (m : List (String × String)) (k : String) : Option String :=
  (m.reverse.find? (fun p => p.1 == k)).map (fun p => p.2)

/-- The dict comprehension `{v: k for k, v in m.items()}` used by
build_dim_club for reverse lookups, as an association list (with `dictGet`
last-wins lookup this matches Python dict-comprehension overwrite order). -/
def reverseDict (m : List (String × String)) : List (String × String) :=
  m.map (fun p => (p.2, p.1))

/-- CANONICAL_CLUBS of dim_club_24_25.py, in definition order. -/
def CANONICAL_CLUBS : List String := [
  "Blackburn Rovers",
  "Bristol City",
  "Burnley",
  "Cardiff City",
  "Coventry City",
  "Derby County",
  "Hull City",
  "Leeds United",
  "Luton Town",
  "Middlesbrough",
  "Millwall",
  "Norwich City",
  "Oxford United",
  "Plymouth Argyle",
  "Portsmouth",
  "Preston North End",
  "Queens Park Rangers",
  "Sheffield United",
  "Sheffield Wednesday",
  "Stoke City",
  "Sunderland",
  "Swansea City",
  "Watford",
  "West Bromwich Albion"]

/-- LEAGUE_TO_CANONICAL: Transfermarkt league table "club" column. -/
def LEAGUE_TO_CANONICAL : List (String × String) := [
  ("Leeds", "Leeds United"),
  ("Burnley", "Burnley"),
  ("Sheff Utd", "Sheffield United"),
  ("Sunderland", "Sunderland"),
  ("Coventry", "Coventry City"),
  ("Bristol City", "Bristol City"),
  ("Blackburn", "Blackburn Rovers"),
  ("Millwall", "Millwall"),
  ("West Brom", "West Bromwich Albion"),
  ("Middlesbrough", "Middlesbrough"),
  ("Swansea", "Swansea City"),
  ("Sheff Wed", "Sheffield Wednesday"),
  ("Norwich", "Norwich City"),
  ("Watford", "Watford"),
  ("QPR", "Queens Park Rangers"),
  ("Portsmouth", "Portsmouth"),
  ("Oxford United", "Oxford United"),
  ("Stoke City", "Stoke City"),
  ("Derby", "Derby County"),
  ("Preston", "Preston North End"),
  ("Hull City", "Hull City"),
  ("Luton", "Luton Town"),
  ("Plymouth", "Plymouth Argyle"),
  ("Cardiff", "Cardiff City")]

/-- FBREF_SQUAD_TO_CANONICAL: FBRef squad standard "squad" column. -/
def FBREF_SQUAD_TO_CANONICAL : List (String × String) := [
  ("Blackburn", "Blackburn Rovers"),
  ("Bristol City", "Bristol City"),
  ("Burnley", "Burnley"),
  ("Cardiff City", "Cardiff City"),
  ("Coventry City", "Coventry City"),
  ("Derby County", "Derby County"),
  ("Hull City", "Hull City"),
  ("Leeds United", "Leeds United"),
  ("Luton Town", "Luton Town"),
  ("Middlesbrough", "Middlesbrough"),
  ("Millwall", "Millwall"),
  ("Norwich City", "Norwich City"),
  ("Oxford United", "Oxford United"),
  ("Plymouth Argyle", "Plymouth Argyle"),
  ("Portsmouth", "Portsmouth"),
  ("Preston", "Preston North End"),
  ("QPR", "Queens Park Rangers"),
  ("Sheffield Utd", "Sheffield United"),
  ("Sheffield Weds", "Sheffield Wednesday"),
  ("Stoke City", "Stoke City"),
  ("Sunderland", "Sunderland"),
  ("Swansea City", "Swansea City"),
  ("Watford", "Watford"),
  ("West Brom", "West Bromwich Albion")]

/-- TM_TRANSFERS_CLUB_TO_CANONICAL: Transfermarkt transfers "Club" column. -/
def TM_TRANSFERS_CLUB_TO_CANONICAL : List (String × String) := [
  ("Blackburn Rovers", "Blackburn Rovers"),
  ("Bristol City", "Bristol City"),
  ("Burnley FC", "Burnley"),
  ("Burnley", "Burnley"),
  ("Cardiff City", "Cardiff City"),
  ("Coventry City", "Coventry City"),
  ("Derby County", "Derby County"),
  ("Hull City", "Hull City"),
  ("Leeds United", "Leeds United"),
  ("Luton Town", "Luton Town"),
  ("Middlesbrough FC", "Middlesbrough"),
  ("Middlesbrough", "Middlesbrough"),
  ("Millwall FC", "Millwall"),
  ("Millwall", "Millwall"),
  ("Norwich City", "Norwich City"),
  ("Oxford United", "Oxford United"),
  ("Plymouth Argyle", "Plymouth Argyle"),
  ("Portsmouth FC", "Portsmouth"),
  ("Portsmouth", "Portsmouth"),
  ("Preston North End", "Preston North End"),
  ("Queens Park Rangers", "Queens Park Rangers"),
  ("Sheffield United", "Sheffield United"),
  ("Sheffield Wednesday", "Sheffield Wednesday"),
  ("Stoke City", "Stoke City"),
  ("Sunderland AFC", "Sunderland"),
  ("Sunderland", "Sunderland"),
  ("Swansea City", "Swansea City"),
  ("Watford FC", "Watford"),
  ("Watford", "Watford"),
  ("West Bromwich Albion", "West Bromwich Albion")]

/-- The DimClubConfig dataclass of dim_club_24_25.py. Its constructor is a
plain dataclass constructor: it performs no validation of any kind. -/
structure DimClubConfig where
  canonical_clubs : List String
  league_to_canonical : List (String × String)
  fbref_to_canonical : List (String × String)
  tm_to_canonical : List (String × String)
deriving DecidableEq, Repr

/-- The module-level CONFIG instance. -/
def CONFIG : DimClubConfig :=
  { canonical_clubs := CANONICAL_CLUBS,
    league_to_canonical := LEAGUE_TO_CANONICAL,
    fbref_to_canonical := FBREF_SQUAD_TO_CANONICAL,
    tm_to_canonical := TM_TRANSFERS_CLUB_TO_CANONICAL }

/-- The exceptions canonical_from_source can raise: `KeyError("Empty club
name for source=...")` for a null/empty name, and `KeyError("Unknown club
name for source=...: name")` for a name absent from the source's mapping.
Both are KeyError in Python; the constructors record the data each message
carries. -/
inductive ClubErr where
  | emptyName (source : SourceType)
  | unknownName (source : SourceType) (name : Val)
deriving DecidableEq, Repr

/-- The mapping selected by canonical_from_source for each source value. -/
def sourceMapping : SourceType → List (String × String)
  | SourceType.league => CONFIG.league_to_canonical
  | SourceType.fbref_squad => CONFIG.fbref_to_canonical
  | SourceType.tm_transfers => CONFIG.tm_to_canonical

/-- canonical_from_source of dim_club_24_25.py: map a raw club name from a
given source to the canonical club name; raises KeyError on a null/empty
name or a name absent from the source's mapping. The lookup `mapping[name]`
is exact: no trimming, no case folding, no fuzzy matching. A non-string
cell (for example an integer) is never equal to a string key, so it fails
the lookup. -/
def canonical_from_source (name : Val) (source : SourceType) : Except ClubErr String :=
  if name = Val.null ∨ name = Val.str "" then
    Except.error (ClubErr.emptyName source)
  else
    match name with
    | Val.str s =>
      match dictGet (sourceMapping source) s with
      | some c => Except.ok c
      | none => Except.error (ClubErr.unknownName source (Val.str s))
    | v => Except.error (ClubErr.unknownName source v)

/-- One character class of the club_key slug: a lowercase ASCII letter or a
digit survives the regex replace `[^a-z0-9]+ -> "-"` unchanged. -/
def isSlugKeep (c : Char) : Bool :=
  (97 ≤ c.toNat && c.toNat ≤ 122) || (48 ≤ c.toNat && c.toNat ≤ 57)

/-- Replace every maximal run of non-[a-z0-9] characters with a single
dash, as `.str.replace(r"[^a-z0-9]+", "-", regex=True)` does. The flag
records whether the previous emitted character was the dash of a run. -/
def slugFold (prevDash : Bool) : List Char → List Char
  | [] => []
  | c :: rest =>
    if isSlugKeep c then c :: slugFold false rest
    else if prevDash then slugFold true rest
    else '-' :: slugFold true rest

/-- Strip leading and trailing dashes, as `.str.strip("-")` does. -/
def stripDashes (l : List Char) : List Char :=
  ((l.dropWhile (fun c => c == '-')).reverse.dropWhile (fun c => c == '-')).reverse

/-- The club_key derivation of build_dim_club: lowercase, collapse runs of
non-alphanumerics to a dash, strip surrounding dashes. -/
def slugify (s : String) : String :=
  String.mk (stripDashes (slugFold false s.toLower.toList))

/-- One row of the dim_club dataframe built by build_dim_club. -/
structure DimRow where
  club_id : Int
  canonical_club_name : String
  league_raw_name : Option String
  fbref_raw_name : Option String
  tm_transfers_raw_name : Option String
  club_key : String
deriving DecidableEq, Repr

/-- build_dim_club of dim_club_24_25.py: one row per canonical club, in
CANONICAL_CLUBS order, club_id running from 1; the per-source raw-name
columns come from the reverse lookups canonical -> raw (pandas `.map` over
a dict yields NaN, here `none`, when the canonical name is not a value of
the mapping); club_key is the slug of the canonical name. -/
def build_dim_club : List DimRow :=
  CONFIG.canonical_clubs.enum.map (fun p =>
    { club_id := (p.1 : Int) + 1,
      canonical_club_name := p.2,
      league_raw_name := dictGet (reverseDict CONFIG.league_to_canonical) p.2,
      fbref_raw_name := dictGet (reverseDict CONFIG.fbref_to_canonical) p.2,
      tm_transfers_raw_name := dictGet (reverseDict CONFIG.tm_to_canonical) p.2,
      club_key := slugify p.2 })

/-- A pandas dataframe: named columns and rows of cells, the cell at
position i of a row belonging to the column at position i. -/
structure DataFrame where
  cols : List String
  rows : List (List Val)
deriving DecidableEq, Repr

/-- The cell of a row at a column index (null when out of range). -/
def cell (r : List Val) (i : Nat) : Val := r.getD i Val.null

/-- Keep the entries of a list whose mask bit is true (used to drop a
column from the column list and from every row in parallel). -/
def applyMask {α : Type} : List Bool → List α → List α
  | b :: bs, x :: xs => if b then x :: applyMask bs xs else applyMask bs xs
  | _, _ => []

/-- Pandas column assignment `df[c] = vals`: overwrite the column in place
when it exists, else append it as the last column. -/
def setCol (df : DataFrame) (c : String) (vals : List Val) : DataFrame :=
  if df.cols.contains c then
    { cols := df.cols,
      rows := (df.rows.zip vals).map (fun p => p.1.set (df.cols.indexOf c) p.2) }
  else
    { cols := df.cols ++ [c],
      rows := (df.rows.zip vals).map (fun p => p.1 ++ [p.2]) }

/-- Pandas `df.drop(columns=[c])`: remove every column named c. -/
def dropCol (df : DataFrame) (c : String) : DataFrame :=
  { cols := applyMask (df.cols.map (fun x => x != c)) df.cols,
    rows := df.rows.map (applyMask (df.cols.map (fun x => x != c))) }

/-- Pandas `df.rename(columns={old: nw})`: rename every column named old. -/
def renameCol (df : DataFrame) (old nw : String) : DataFrame :=
  { cols := df.cols.map (fun x => if x = old then nw else x), rows := df.rows }

/-- The merge step of attach_club_id_from_source:
`tmp.merge(dim_club[["club_id", "canonical_club_name"]],
on="canonical_club_name", how="left")`. Left-merge semantics: the result
columns are the left columns followed by the non-key right column club_id;
each left row, in order, is paired with every dim row whose
canonical_club_name equals its key cell (in dim order), or with a null
club_id when none matches. The model assumes the left frame has no column
already named club_id (so no pandas suffixing occurs), which holds at every
call site in the repository. -/
def mergeDimLeft (df : DataFrame) (dim : List DimRow) : DataFrame :=
  { cols := df.cols ++ ["club_id"],
    rows := (df.rows.map (fun r =>
      let key := cell r (df.cols.indexOf "canonical_club_name")
      let ms := dim.filter (fun d => Val.str d.canonical_club_name = key)
      if ms.isEmpty then [r ++ [Val.null]]
      else ms.map (fun d => r ++ [Val.int d.club_id]))).flatten }

/-- Pandas `Series.apply` over the `Except` monad: the first raised
exception aborts the whole operation. -/
def mapExcept {α β ε : Type} (f : α → Except ε β) : List α → Except ε (List β)
  | [] => Except.ok []
  | a :: as => do
    let b ← f a
    let bs ← mapExcept f as
    pure (b :: bs)

/-- attach_club_id_from_source of dim_club_24_25.py. When club_col is not a
column of df it logs a warning and returns df unchanged; otherwise it maps
every cell of club_col through canonical_from_source (any KeyError
propagates), left-merges the club_id of the dim_club rows on the resolved
canonical name, drops the temporary canonical_club_name column, and renames
club_id to new_col (the Python default for new_col is "club_id"). Logging,
including the warning on rows left without a club_id, has no effect on the
returned frame and is not modelled. -/
def attach_club_id_from_source (df : DataFrame) (club_col : String)
    (source : SourceType) (dim_club : List DimRow) (new_col : String) :
    Except ClubErr DataFrame :=
  if df.cols.contains club_col then do
    let canon ← mapExcept
      (fun r => (canonical_from_source (cell r (df.cols.indexOf club_col)) source).map Val.str)
      df.rows
    let tmp := setCol df "canonical_club_name" canon
    let tmp := mergeDimLeft tmp dim_club
    let tmp := dropCol tmp "canonical_club_name"
    pure (renameCol tmp "club_id" new_col)
  else
    Except.ok df

/-- The club_map built inside build_transfers_semantic of
build_semantic_curated_2024_25.py: for each dim_club row whose
tm_transfers_raw_name is a non-empty string, map that raw label to the
canonical club name. -/
def club_map (dim : List DimRow) : List (String × String) :=
  dim.filterMap (fun row =>
    match row.tm_transfers_raw_name with
    | some raw => if raw ≠ "" then some (raw, row.canonical_club_name) else none
    | none => none)

/-- standardize_external_club of build_semantic_curated_2024_25.py: replace
a raw club name with the canonical Championship club name when club_map
knows it, otherwise keep the original raw value unchanged; non-string
values are returned as they are. -/
def standardize_external_club (dim : List DimRow) (raw_name : Val) : Val :=
  match raw_name with
  | Val.str s =>
    match dictGet (club_map dim) s with
    | some c => Val.str c
    | none => Val.str s
  | v => v

/-- A deliberately conflicting registry configuration: within the league
vocabulary the alias "Leeds" is claimed by two different canonical
entities. Python would build this dict literal by letting the second
binding silently overwrite the first. -/
def conflictingConfig : DimClubConfig :=
  { canonical_clubs := ["Leeds United", "Leeds Rhinos"],
    league_to_canonical := [("Leeds", "Leeds United"), ("Leeds", "Leeds Rhinos")],
    fbref_to_canonical := [],
    tm_to_canonical := [] }

/-- The two-row example dataset of the end-to-end scenario:
rows {club: "Leeds", pts: 88} and {club: "Burnley", pts: 75}. -/
def exampleLeagueDF : DataFrame :=
  { cols := ["club", "pts"],
    rows := [[Val.str "Leeds", Val.int 88], [Val.str "Burnley", Val.int 75]] }

/-- The two-entity registry fixture of the end-to-end scenario: entity 1 is
Leeds United with league alias "Leeds", entity 2 is Burnley with league
alias "Burnley". -/
def exampleDim : List DimRow :=
  [{ club_id := 1, canonical_club_name := "Leeds United",
     league_raw_name := some "Leeds", fbref_raw_name := none,
     tm_transfers_raw_name := none, club_key := "leeds-united" },
   { club_id := 2, canonical_club_name := "Burnley",
     league_raw_name := some "Burnley", fbref_raw_name := none,
     tm_transfers_raw_name := none, club_key := "burnley" }]

/-- Trimming of surrounding ASCII whitespace, character-list based. The
specification's resolver contract describes such a trim before lookup; the
code itself never trims, and this function exists only to state the
comparison between resolve(s) and resolve(trim(s)). -/
def specTrim (s : String) : String :=
  String.mk
    (((s.toList.dropWhile (fun c => c.isWhitespace)).reverse.dropWhile
        (fun c => c.isWhitespace)).reverse)

/-!
Theorems.
-/

/-- C1 counterexample: on the non-empty one-row dataset with columns
["team"], asking attach_club_id_from_source to use the absent column
"club" raises nothing and returns the dataset unchanged, contradicting the
claim that it fails with a SchemaError and never silently passes the
dataset through. -/
theorem attach_missing_column_no_error :
    attach_club_id_from_source
        { cols := ["team"], rows := [[Val.str "Leeds"]] } "club" SourceType.league
        build_dim_club "club_id"
      = Except.ok { cols := ["team"], rows := [[Val.str "Leeds"]] } := by
  decide

/-- C1 amended: when the designated club column is absent from the
dataset, attach_club_id_from_source returns the dataset unchanged (after
logging a warning); no SchemaError exists in the code and no exception is
raised. -/
theorem attach_missing_column_returns_unchanged (df : DataFrame) (club_col : String)
    (source : SourceType) (dim : List DimRow) (new_col : String)
    (h : club_col ∉ df.cols) :
    attach_club_id_from_source df club_col source dim new_col = Except.ok df := by
  unfold attach_club_id_from_source
  simp [h]

/-- C1 witness: the amended theorem applied to a concrete one-row dataset
without a "club" column. -/
theorem attach_missing_column_returns_unchanged_witness :
    attach_club_id_from_source
        { cols := ["pts"], rows := [[Val.int 1]] } "club" SourceType.fbref_squad [] "club_id"
      = Except.ok { cols := ["pts"], rows := [[Val.int 1]] } :=
  attach_missing_column_returns_unchanged _ _ _ _ _ (by decide)

/-- C2 counterexample: "Leeds United" is a canonical club, yet resolving it
under the league source vocabulary raises KeyError instead of returning the
entity, so the canonical name does not self-resolve for every source. -/
theorem canonical_name_fails_league_source :
    "Leeds United" ∈ CANONICAL_CLUBS
    ∧ canonical_from_source (Val.str "Leeds United") SourceType.league
        = Except.error (ClubErr.unknownName SourceType.league (Val.str "Leeds United")) := by
  decide

/-- C2 amended: canonical names self-resolve only under the tm_transfers
vocabulary, where every canonical club name is a key mapping to itself; the
league and fbref_squad vocabularies omit many canonical spellings (for
example "Leeds United"), for which resolution raises KeyError. -/
theorem canonical_name_self_resolves_tm (c : String) (h : c ∈ CANONICAL_CLUBS) :
    canonical_from_source (Val.str c) SourceType.tm_transfers = Except.ok c := by
  revert c
  decide

/-- C2 witness: the amended theorem applied to the canonical name
"Sheffield Wednesday". -/
theorem canonical_name_self_resolves_tm_witness :
    canonical_from_source (Val.str "Sheffield Wednesday") SourceType.tm_transfers
      = Except.ok "Sheffield Wednesday" :=
  canonical_name_self_resolves_tm "Sheffield Wednesday" (by decide)

/-- C3 counterexample: "Real Madrid" is absent from the club_map alias
vocabulary, yet standardize_external_club returns the raw string itself
unchanged instead of failing or flagging the value, so the silent
pass-through pattern is present in the code. -/
theorem standardize_external_club_passes_raw_through :
    dictGet (club_map build_dim_club) "Real Madrid" = none
    ∧ standardize_external_club build_dim_club (Val.str "Real Madrid")
        = Val.str "Real Madrid" := by
  decide

/-- C3 amended: standardize_external_club deliberately returns any raw
string absent from club_map unchanged (external, non-Championship clubs
keep their raw label), while the resolver canonical_from_source does fail
loudly with KeyError on a non-empty string absent from the source
vocabulary. -/
theorem standardize_external_club_fallback (dim : List DimRow) (s : String)
    (source : SourceType)
    (h1 : dictGet (club_map dim) s = none)
    (h2 : dictGet (sourceMapping source) s = none)
    (h3 : s ≠ "") :
    standardize_external_club dim (Val.str s) = Val.str s
    ∧ canonical_from_source (Val.str s) source
        = Except.error (ClubErr.unknownName source (Val.str s)) := by
  constructor
  · unfold standardize_external_club
    simp [h1]
  · unfold canonical_from_source
    simp [h2, h3]

/-- C3 witness: the amended theorem applied to the unmapped string
"FC Barcelona" with the dim table built by build_dim_club and the
tm_transfers vocabulary. -/
theorem standardize_external_club_fallback_witness :
    standardize_external_club build_dim_club (Val.str "FC Barcelona")
        = Val.str "FC Barcelona"
    ∧ canonical_from_source (Val.str "FC Barcelona") SourceType.tm_transfers
        = Except.error
            (ClubErr.unknownName SourceType.tm_transfers (Val.str "FC Barcelona")) :=
  standardize_external_club_fallback build_dim_club "FC Barcelona"
    SourceType.tm_transfers (by decide) (by decide) (by decide)

/-- C4 counterexample: a configuration in which the alias "Leeds" is
claimed by two different canonical entities within the league vocabulary is
constructed without any error, and a lookup of the conflicting alias
silently yields the later binding instead of an AmbiguousAliasError being
raised at construction time. -/
theorem conflicting_config_constructs_silently :
    conflictingConfig.league_to_canonical
        = [("Leeds", "Leeds United"), ("Leeds", "Leeds Rhinos")]
    ∧ dictGet conflictingConfig.league_to_canonical "Leeds" = some "Leeds Rhinos" := by
  decide

/-- C4 amended: DimClubConfig construction performs no alias-uniqueness
validation whatsoever — it stores whatever mappings it is given, and an
alias claimed twice within one vocabulary is resolved silently by Python
dict-literal semantics to the last binding; no AmbiguousAliasError exists
anywhere in the code. -/
theorem dimclubconfig_no_validation (cc : List String)
    (lm fm tm : List (String × String)) (k v1 v2 : String) :
    (DimClubConfig.mk cc (lm ++ [(k, v1), (k, v2)]) fm tm).league_to_canonical
        = lm ++ [(k, v1), (k, v2)]
    ∧ dictGet (lm ++ [(k, v1), (k, v2)]) k = some v2 := by
  constructor
  · rfl
  · unfold dictGet
    rw [List.reverse_append]
    simp

/-- C5 counterexample: " Leeds" trims to "Leeds", and "Leeds" resolves
under the league vocabulary, yet resolving the untrimmed " Leeds" raises
KeyError: the resolver performs no trimming before lookup, so
resolve(s, source) and resolve(trim(s), source) differ. -/
theorem resolver_does_not_trim :
    specTrim " Leeds" = "Leeds"
    ∧ canonical_from_source (Val.str "Leeds") SourceType.league
        = Except.ok "Leeds United"
    ∧ canonical_from_source (Val.str " Leeds") SourceType.league
        = Except.error (ClubErr.unknownName SourceType.league (Val.str " Leeds")) := by
  refine ⟨by decide, by decide, by decide⟩

/-- C5 amended: the resolver performs no trimming and no fuzzy or partial
matching: for every non-empty raw string the result is determined by one
exact, case-sensitive lookup of the string as given in the source's
mapping — a hit returns its canonical name, a miss raises KeyError. -/
theorem canonical_from_source_exact_lookup (s : String) (source : SourceType)
    (h : s ≠ "") :
    canonical_from_source (Val.str s) source =
      match dictGet (sourceMapping source) s with
      | some c => Except.ok c
      | none => Except.error (ClubErr.unknownName source (Val.str s)) := by
  unfold canonical_from_source
  simp [h]

/-- C5 witness: the amended theorem applied to the alias "Sheff Utd" under
the league vocabulary. -/
theorem canonical_from_source_exact_lookup_witness :
    canonical_from_source (Val.str "Sheff Utd") SourceType.league =
      match dictGet (sourceMapping SourceType.league) "Sheff Utd" with
      | some c => Except.ok c
      | none =>
        Except.error (ClubErr.unknownName SourceType.league (Val.str "Sheff Utd")) :=
  canonical_from_source_exact_lookup "Sheff Utd" SourceType.league (by decide)

/-- C6: for every input that is null, empty, or absent from the given
source's mapping, canonical_from_source fails with a KeyError — emptyName
for a null/empty input and unknownName, carrying the offending raw value
and the source, otherwise — and never returns a defaulted guess: the
result is an error that propagates to the caller. -/
theorem resolver_fails_on_empty_null_or_unknown (name : Val) (source : SourceType)
    (h : name = Val.null ∨ name = Val.str "" ∨
         ∀ s, name = Val.str s → dictGet (sourceMapping source) s = none) :
    canonical_from_source name source =
      Except.error
        (if name = Val.null ∨ name = Val.str "" then ClubErr.emptyName source
         else ClubErr.unknownName source name) := by
  cases name with
  | null => simp [canonical_from_source]
  | int n => simp [canonical_from_source]
  | str s =>
    by_cases hs : s = ""
    · subst hs
      simp [canonical_from_source]
    · have hnone : dictGet (sourceMapping source) s = none := by
        rcases h with h | h | h
        · exact absurd h (by simp)
        · exact absurd h (by simp [hs])
        · exact h s rfl
      simp [canonical_from_source, hs, hnone]

/-- C6 witness: the theorem applied to the misspelt raw string
"Leads Untied" under the league vocabulary. -/
theorem resolver_fails_on_empty_null_or_unknown_witness :
    canonical_from_source (Val.str "Leads Untied") SourceType.league =
      Except.error
        (if (Val.str "Leads Untied" = Val.null ∨ Val.str "Leads Untied" = Val.str "")
         then ClubErr.emptyName SourceType.league
         else ClubErr.unknownName SourceType.league (Val.str "Leads Untied")) :=
  resolver_fails_on_empty_null_or_unknown (Val.str "Leads Untied") SourceType.league
    (Or.inr (Or.inr (fun s hs => by
      injection hs with hss
      subst hss
      decide)))

/-- C7: every alias listed in a source's vocabulary resolves, under that
source, to the canonical name it is mapped to, and that canonical name is
one of the canonical clubs. -/
theorem aliases_resolve_to_canonical (source : SourceType) (p : String × String)
    (h : p ∈ sourceMapping source) :
    canonical_from_source (Val.str p.1) source = Except.ok p.2
    ∧ p.2 ∈ CANONICAL_CLUBS := by
  cases source <;> (revert p; decide)

/-- C7 witness: the theorem applied to the league alias "Sheff Wed". -/
theorem aliases_resolve_to_canonical_witness :
    canonical_from_source (Val.str "Sheff Wed") SourceType.league
        = Except.ok "Sheffield Wednesday"
    ∧ "Sheffield Wednesday" ∈ CANONICAL_CLUBS :=
  aliases_resolve_to_canonical SourceType.league ("Sheff Wed", "Sheffield Wednesday")
    (by decide)

/-- C8 counterexample: on the spec's two-row example dataset and two-entity
registry, the columns of the frame returned by attach_club_id_from_source
are ["club", "pts", "club_id"]: the original free-text club column is still
present, contradicting the claim that it is removed from the output. -/
theorem attach_example_keeps_club_column :
    (attach_club_id_from_source exampleLeagueDF "club" SourceType.league exampleDim
        "club_id").map DataFrame.cols
      = Except.ok ["club", "pts", "club_id"] := by
  decide

/-- C8 amended: on the two-row example dataset, attach_club_id_from_source
returns the rows augmented with club_id 1 and 2 respectively, but the
original free-text club column is retained; only the temporary
canonical_club_name helper column is dropped. -/
theorem attach_example_result :
    attach_club_id_from_source exampleLeagueDF "club" SourceType.league exampleDim
        "club_id"
      = Except.ok
          { cols := ["club", "pts", "club_id"],
            rows := [[Val.str "Leeds", Val.int 88, Val.int 1],
                     [Val.str "Burnley", Val.int 75, Val.int 2]] } := by
  decide

/-- C9: build_dim_club returns exactly one row per canonical club, in
CANONICAL_CLUBS definition order, with club_id assigned consecutively
from 1 to 24. -/
theorem build_dim_club_ids_and_order :
    build_dim_club.map DimRow.club_id
        = [1, 2, 3, 4, 5, 6, 7, 8, 9, 10, 11, 12,
           13, 14, 15, 16, 17, 18, 19, 20, 21, 22, 23, 24]
    ∧ build_dim_club.map DimRow.canonical_club_name = CANONICAL_CLUBS
    ∧ build_dim_club.length = CANONICAL_CLUBS.length
    ∧ CANONICAL_CLUBS.length = 24 := by
  refine ⟨by decide, by decide, by decide, by decide⟩

/-- Length of a successful mapExcept matches the input length, and success
follows from per-element success. -/
theorem mapExcept_ok_of_all_ok {α β ε : Type} (f : α → Except ε β) (l : List α)
    (h : ∀ a ∈ l, ∃ b, f a = Except.ok b) :
    ∃ l2, mapExcept f l = Except.ok l2 ∧ l2.length = l.length := by
  induction l with
  | nil => exact ⟨[], rfl, rfl⟩
  | cons a as ih =>
    obtain ⟨b, hb⟩ := h a (List.mem_cons_self a as)
    obtain ⟨bs, hbs, hlen⟩ := ih (fun x hx => h x (List.mem_cons_of_mem a hx))
    refine ⟨b :: bs, ?_, by simp [hlen]⟩
    show mapExcept f (a :: as) = Except.ok (b :: bs)
    unfold mapExcept
    rw [hb, hbs]
    rfl

/-- A filter on the canonical name matches at most one row when the
canonical names of the dim table are pairwise distinct. -/
theorem filter_name_length_le_one (dim : List DimRow)
    (h : (dim.map DimRow.canonical_club_name).Nodup) (key : Val) :
    (dim.filter (fun d => Val.str d.canonical_club_name = key)).length ≤ 1 := by
  induction dim with
  | nil => simp
  | cons d rest ih =>
    rw [List.map_cons, List.nodup_cons] at h
    rw [List.filter_cons]
    by_cases hd : Val.str d.canonical_club_name = key
    · have hrest : rest.filter (fun d2 => Val.str d2.canonical_club_name = key) = [] := by
        rw [List.filter_eq_nil_iff]
        intro a ha hpa
        apply h.1
        rw [List.mem_map]
        refine ⟨a, ha, ?_⟩
        have hpa2 : Val.str a.canonical_club_name = key := by
          simpa using hpa
        rw [← hd] at hpa2
        exact (Val.str.injEq _ _).mp hpa2
      simp [hd, hrest]
    · simp only [hd, decide_False]
      simpa using ih h.2

/-- The left merge of attach_club_id_from_source produces exactly one
output row per input row when the dim table's canonical names are pairwise
distinct: a row with a match contributes its single match, a row without a
match contributes one null-club_id row. -/
theorem mergeDimLeft_length (df : DataFrame) (dim : List DimRow)
    (h : (dim.map DimRow.canonical_club_name).Nodup) :
    (mergeDimLeft df dim).rows.length = df.rows.length := by
  unfold mergeDimLeft
  simp only
  induction df.rows with
  | nil => rfl
  | cons r rs ih =>
    rw [List.map_cons, List.flatten_cons, List.length_append, ih, List.length_cons]
    have hone :
        (if (dim.filter (fun d =>
              Val.str d.canonical_club_name
                = cell r (df.cols.indexOf "canonical_club_name"))).isEmpty
         then [r ++ [Val.null]]
         else (dim.filter (fun d =>
              Val.str d.canonical_club_name
                = cell r (df.cols.indexOf "canonical_club_name"))).map
            (fun d => r ++ [Val.int d.club_id])).length = 1 := by
      by_cases he :
          (dim.filter (fun d =>
            Val.str d.canonical_club_name
              = cell r (df.cols.indexOf "canonical_club_name"))).isEmpty
      · simp [he]
      · rw [if_neg he, List.length_map]
        have h1 := filter_name_length_le_one dim h
          (cell r (df.cols.indexOf "canonical_club_name"))
        have h2 : (dim.filter (fun d =>
            Val.str d.canonical_club_name
              = cell r (df.cols.indexOf "canonical_club_name"))).length ≠ 0 := by
          intro hz
          exact he (List.isEmpty_iff_length_eq_zero.mpr hz)
        omega
    rw [hone]
    omega

/-- Assigning a column whose value list is as long as the row list leaves
the number of rows unchanged. -/
theorem setCol_rows_length (df : DataFrame) (c : String) (vals : List Val)
    (h : vals.length = df.rows.length) :
    (setCol df c vals).rows.length = df.rows.length := by
  unfold setCol
  by_cases hc : c ∈ df.cols <;>
    simp [hc, List.length_zip, h]

/-- Dropping a column leaves the number of rows unchanged. -/
theorem dropCol_rows_length (df : DataFrame) (c : String) :
    (dropCol df c).rows.length = df.rows.length := by
  unfold dropCol
  simp

/-- C10: for every dataframe that contains the designated club column and
whose club-column cells all resolve under the given source,
attach_club_id_from_source built over build_dim_club succeeds and returns
exactly one output row per input row: each canonical club name occurs
exactly once in the dim table, so the left merge neither duplicates nor
drops rows (the embedding is pure, so the input frame is unchanged by
construction; the code operates on df.copy()). -/
theorem attach_preserves_row_count (df : DataFrame) (club_col : String)
    (source : SourceType) (new_col : String)
    (hcol : club_col ∈ df.cols)
    (hres : ∀ r ∈ df.rows, ∃ c,
        canonical_from_source (cell r (df.cols.indexOf club_col)) source
          = Except.ok c) :
    ∃ out,
      attach_club_id_from_source df club_col source build_dim_club new_col
          = Except.ok out
      ∧ out.rows.length = df.rows.length := by
  have hdim : (build_dim_club.map DimRow.canonical_club_name).Nodup := by decide
  obtain ⟨canon, hcanon, hlen⟩ := mapExcept_ok_of_all_ok
    (fun r =>
      (canonical_from_source (cell r (df.cols.indexOf club_col)) source).map Val.str)
    df.rows
    (fun r hr => by
      obtain ⟨c, hc⟩ := hres r hr
      exact ⟨Val.str c, by simp [hc, Except.map]⟩)
  refine ⟨renameCol
      (dropCol
        (mergeDimLeft (setCol df "canonical_club_name" canon) build_dim_club)
        "canonical_club_name")
      "club_id" new_col, ?_, ?_⟩
  · unfold attach_club_id_from_source
    simp [hcol, hcanon]
  · show (renameCol _ "club_id" new_col).rows.length = df.rows.length
    unfold renameCol
    simp only
    rw [dropCol_rows_length, mergeDimLeft_length _ _ hdim, setCol_rows_length]
    exact hlen

/-- C10 witness: the theorem applied to a concrete one-row dataset whose
single club cell "Cardiff" resolves under the league vocabulary. -/
theorem attach_preserves_row_count_witness :
    ∃ out,
      attach_club_id_from_source
          { cols := ["club"], rows := [[Val.str "Cardiff"]] } "club"
          SourceType.league build_dim_club "club_id"
        = Except.ok out
      ∧ out.rows.length
          = (DataFrame.mk ["club"] [[Val.str "Cardiff"]]).rows.length :=
  attach_preserves_row_count
    (DataFrame.mk ["club"] [[Val.str "Cardiff"]]) "club" SourceType.league "club_id"
    (by decide)
    (fun r hr => by
      have hr2 : r = [Val.str "Cardiff"] := by simpa using hr
      subst hr2
      exact ⟨"Cardiff City", by decide⟩)
